import Mathlib

/-!
Shallow embedding of the star-realms-rs client library (src/lib.rs and
src/error.rs). Network effects are modelled by passing the backend as an
oracle: a function from the data of each HTTP request to its outcome
(a transport failure or an HTTP response). Mutation of the session object
(Rust `&mut self`) is modelled by explicit state passing. Machine integers
`usize` and `isize` are modelled as `Nat` and `Int`; none of the code relies
on overflow.
-/

set_option autoImplicit false

namespace StarRealmsRs

/-- Error enum from src/error.rs. `ReqwestError` stands for any
transport-level failure of the underlying HTTP library; its payload (the
wrapped library error) is not modelled. -/
inductive Error where
  | ReqwestError
  | InvalidAPIResponse (s : String)
  | InvalidPlayerName (s : String)
  | UnknownCoreVersion
  | Unknown
deriving DecidableEq, Repr

/-- `Token` struct from src/lib.rs: the session identity returned by the
login endpoint. The Rust field is `username` with serde rename `name`;
`id` is `usize` (modelled as `Nat`), `purchases` is `Vec<String>`. -/
structure Token where
  username : String
  id : Nat
  token1 : String
  token2 : String
  purchases : List String
deriving DecidableEq, Repr

/-- `Token::default()` from the derived `Default`: empty strings, zero id,
empty purchase list. -/
def Token.default : Token :=
  { username := "", id := 0, token1 := "", token2 := "", purchases := [] }

/-- `ClientData` struct from src/lib.rs: per-player auth and name data
decoded from the string-encoded `clientdata` field of a `Game`. The auth
fields are `isize` (modelled as `Int`). -/
structure ClientData where
  p1_auth : Int
  p2_auth : Int
  p1_name : String
  p2_name : String
deriving DecidableEq, Repr

/-- `Game` struct from src/lib.rs: a single match record. `id` and
`endreason` are `i64` (modelled as `Int`). -/
structure Game where
  id : Int
  timing : String
  mmdata : String
  clientdata : ClientData
  opponentname : String
  actionneeded : Bool
  endreason : Int
  won : Bool
  lastupdatedtime : String
  isleaguegame : Bool
  istournamentgame : Bool
deriving DecidableEq, Repr

/-- The session object `StarRealms` from src/lib.rs. The `client` field (a
transport handle with no observable state) is not modelled. -/
structure StarRealms where
  token : Token
  core_version : Nat
deriving DecidableEq, Repr

/-- Outcome of one version-probe GET at the transport level: either the
request itself fails (connection error and the like) or an HTTP response
with some status code arrives. The response body is irrelevant to the
probe loop, which only inspects the status. -/
inductive ProbeOutcome where
  | transportError
  | response (status : Nat)
deriving DecidableEq, Repr

/-- Outcome of the login POST: a transport failure, or an HTTP response
carrying a status code and, for the 200 path, the result of parsing the
body as a `Token` (`none` models a malformed body, which `res.json()`
surfaces as a transport-library error). -/
inductive LoginResponse where
  | transportError
  | response (status : Nat) (body : Option Token)
deriving DecidableEq, Repr

/-- Rendering of `res.status().to_string()` in src/lib.rs. The HTTP library
renders the numeric status code (followed by a canonical reason phrase,
which we do not model); the numeric part determines the string. -/
def statusDisplay (status : Nat) : String := toString status

/-- `StarRealms::new_token` from src/lib.rs lines 57 to 70, with the login
response supplied by the oracle. State passing models `&mut self`: the
function returns the post-state together with the `Result<()>`. A non-200
status returns `Error::InvalidAPIResponse` with the status display string
and leaves the token untouched; on 200 the parsed body is stored as the
session token, a parse failure propagating as a transport-library error. -/
def StarRealms.new_token (sr : StarRealms) (resp : LoginResponse) :
    StarRealms × Except Error Unit :=
  match resp with
  | .transportError => (sr, .error .ReqwestError)
  | .response status body =>
    if status ≠ 200 then
      (sr, .error (.InvalidAPIResponse (statusDisplay status)))
    else
      match body with
      | none => (sr, .error .ReqwestError)
      | some tok => ({ sr with token := tok }, .ok ())

/-- The body of the `for core_version in 45..100` loop of
`StarRealms::find_core_version` (src/lib.rs lines 74 to 91), recursing over
the list of remaining candidate versions. `probe auth v` is the backend
outcome of the GET with header `Auth` set to `auth` and header
`coreversion` set to `v`. Besides the post-state and the result, the
function records the list of candidates actually probed, in order (ghost
instrumentation, no counterpart in the Rust). -/
def find_core_version_loop (sr : StarRealms) (probe : String → Nat → ProbeOutcome) :
    List Nat → StarRealms × List Nat × Except Error Unit
  | [] => (sr, [], .error .UnknownCoreVersion)
  | v :: rest =>
    match probe sr.token.token2 v with
    | .transportError => (sr, [v], .error .ReqwestError)
    | .response status =>
      if status = 200 then
        ({ sr with core_version := v }, [v], .ok ())
      else
        let r := find_core_version_loop sr probe rest
        (r.1, v :: r.2.1, r.2.2)

/-- The candidate range of the probe loop: `45..100` in Rust, that is the
ascending list 45, 46, ..., 99. -/
def coreVersionRange : List Nat := List.range' 45 55

/-- `StarRealms::find_core_version` from src/lib.rs lines 74 to 91: run the
probe loop over the full candidate range. -/
def StarRealms.find_core_version (sr : StarRealms)
    (probe : String → Nat → ProbeOutcome) :
    StarRealms × List Nat × Except Error Unit :=
  find_core_version_loop sr probe coreVersionRange

/-- `StarRealms::new` from src/lib.rs lines 20 to 29: build the initial
session (default token, core version 45), run `new_token` with the login
oracle response for the given credentials, propagate its failure with `?`,
then run `find_core_version` and propagate its failure with `?`. The second
component is the list of candidate versions probed during version
discovery (empty when discovery never ran). -/
def StarRealms.new (username password : String)
    (login : String → String → LoginResponse)
    (probe : String → Nat → ProbeOutcome) :
    Except Error StarRealms × List Nat :=
  let sr0 : StarRealms := { token := Token.default, core_version := 45 }
  match sr0.new_token (login username password) with
  | (sr1, r1) =>
    match r1 with
    | .error e => (.error e, [])
    | .ok _ =>
      match sr1.find_core_version probe with
      | (sr2, probed, .ok _) => (.ok sr2, probed)
      | (_, probed, .error e) => (.error e, probed)

/-- `ClientData::get_auth` from src/lib.rs lines 172 to 180: case-sensitive
exact match of the supplied name against player one first, then player two;
otherwise `Error::InvalidPlayerName` carrying the supplied name. -/
def ClientData.get_auth (cd : ClientData) (name : String) : Except Error Int :=
  if name = cd.p1_name then .ok cd.p1_auth
  else if name = cd.p2_name then .ok cd.p2_auth
  else .error (.InvalidPlayerName name)

/-- `Game::is_finished` from src/lib.rs lines 194 to 196. -/
def Game.is_finished (g : Game) : Bool :=
  g.endreason == 0 && !g.won && !g.actionneeded

/-- `Game::is_player_one` from src/lib.rs lines 212 to 214. -/
def Game.is_player_one (g : Game) : Bool :=
  g.opponentname != g.clientdata.p1_name

/-- `Game::which_turn` from src/lib.rs lines 199 to 209: start with the
opponent name; when the `actionneeded` flag is set, replace it with player
one name or player two name according to `is_player_one`. -/
def Game.which_turn (g : Game) : String :=
  let wt := g.opponentname
  if g.actionneeded then
    if g.is_player_one then g.clientdata.p1_name else g.clientdata.p2_name
  else
    wt

/-- A JSON value, for the `Token` wire shape. Numbers only occur as the
integral account id here, so they are modelled as `Int`. -/
inductive Json where
  | null
  | bool (b : Bool)
  | num (n : Int)
  | str (s : String)
  | arr (elems : List Json)
  | obj (fields : List (String × Json))

/-- First value bound to a key in a JSON object; `none` on any other JSON
shape or when the key is absent. -/
def Json.getField : Json → String → Option Json
  | .obj fields, k => fields.lookup k
  | _, _ => none

/-- Decode a JSON value as a string. -/
def Json.asStr : Json → Option String
  | .str s => some s
  | _ => none

/-- Decode a JSON value as a `usize`: a non-negative integral number. -/
def Json.asNat : Json → Option Nat
  | .num n => if n < 0 then none else some n.toNat
  | _ => none

/-- Decode every element of a JSON list as a string, failing if any element
is not a string. -/
def decodeStrList : List Json → Option (List String)
  | [] => some []
  | x :: xs =>
    match Json.asStr x, decodeStrList xs with
    | some s, some rest => some (s :: rest)
    | _, _ => none

/-- Decode a JSON value as a `Vec<String>`. -/
def Json.asStrList : Json → Option (List String)
  | .arr elems => decodeStrList elems
  | _ => none

/-- Modelled from the spec: the repository derives only deserialization for
`Token`, so the serializer to the wire JSON shape is absent from the source;
per the spec the wire shape is an object with fields `name`, `id`, `token1`,
`token2`, `purchases`, where `name` carries the `username` field (the serde
rename in src/lib.rs line 113). -/
def Token.toWireJson (t : Token) : Json :=
  .obj [("name", .str t.username), ("id", .num (t.id : Int)),
        ("token1", .str t.token1), ("token2", .str t.token2),
        ("purchases", .arr (t.purchases.map .str))]

/-- The derived serde `Deserialize` for `Token` (src/lib.rs lines 111 to
119) read off a JSON object: each field is looked up under its wire name
(`name` for `username` per the rename attribute), decoded at its declared
type, and any missing field or type mismatch fails. -/
def Token.fromWireJson (j : Json) : Option Token := do
  let username ← (j.getField "name").bind Json.asStr
  let id ← (j.getField "id").bind Json.asNat
  let token1 ← (j.getField "token1").bind Json.asStr
  let token2 ← (j.getField "token2").bind Json.asStr
  let purchases ← (j.getField "purchases").bind Json.asStrList
  some { username := username, id := id, token1 := token1,
         token2 := token2, purchases := purchases }

/-! ## Helper lemmas about the probe loop -/

/-- When every candidate of the list draws a non-200 HTTP response, the probe
loop walks the whole list, probing every candidate in order, and ends in
`Error::UnknownCoreVersion` with the state untouched. -/
theorem find_core_version_loop_exhaustion (sr : StarRealms)
    (probe : String → Nat → ProbeOutcome) (l : List Nat)
    (hfail : ∀ u ∈ l, ∃ s, probe sr.token.token2 u = .response s ∧ s ≠ 200) :
    find_core_version_loop sr probe l = (sr, l, .error .UnknownCoreVersion) := by
  induction l with
  | nil => rfl
  | cons u l ih =>
    obtain ⟨s, hs, hne⟩ := hfail u (List.mem_cons_self u l)
    have ih2 := ih fun w hw => hfail w (List.mem_cons_of_mem u hw)
    simp [find_core_version_loop, hs, hne, ih2]

/-- When every candidate before `v` draws a non-200 HTTP response and `v`
draws a 200, the probe loop stops at `v`: it adopts `v` as the core version,
probes exactly the candidates up to and including `v`, and succeeds. -/
theorem find_core_version_loop_first_success (sr : StarRealms)
    (probe : String → Nat → ProbeOutcome) (l1 l2 : List Nat) (v : Nat)
    (hfail : ∀ u ∈ l1, ∃ s, probe sr.token.token2 u = .response s ∧ s ≠ 200)
    (hv : probe sr.token.token2 v = .response 200) :
    find_core_version_loop sr probe (l1 ++ v :: l2) =
      ({ sr with core_version := v }, l1 ++ [v], .ok ()) := by
  induction l1 with
  | nil => simp [find_core_version_loop, hv]
  | cons u l1 ih =>
    obtain ⟨s, hs, hne⟩ := hfail u (List.mem_cons_self u l1)
    have ih2 := ih fun w hw => hfail w (List.mem_cons_of_mem u hw)
    simp [find_core_version_loop, hs, hne, ih2]

/-- When every candidate before `v` draws a non-200 HTTP response and the
probe of `v` fails at the transport level, the loop aborts at `v`: the
transport error is returned, the state is untouched, and exactly the
candidates up to and including `v` were probed. -/
theorem find_core_version_loop_transport_abort (sr : StarRealms)
    (probe : String → Nat → ProbeOutcome) (l1 l2 : List Nat) (v : Nat)
    (hfail : ∀ u ∈ l1, ∃ s, probe sr.token.token2 u = .response s ∧ s ≠ 200)
    (hv : probe sr.token.token2 v = .transportError) :
    find_core_version_loop sr probe (l1 ++ v :: l2) =
      (sr, l1 ++ [v], .error .ReqwestError) := by
  induction l1 with
  | nil => simp [find_core_version_loop, hv]
  | cons u l1 ih =>
    obtain ⟨s, hs, hne⟩ := hfail u (List.mem_cons_self u l1)
    have ih2 := ih fun w hw => hfail w (List.mem_cons_of_mem u hw)
    simp [find_core_version_loop, hs, hne, ih2]

/-! ## Claims -/

/-- Claim C1: for every run of version discovery in which no candidate
version in the probe range receives a 200 response (each probed candidate
draws a non-200 HTTP response, so the loop runs the whole range), bootstrap
fails with the unknown-protocol-version error kind: the result is
`Error::UnknownCoreVersion`, never `Ok`, and the session state is returned
unchanged rather than left usable with the default protocol version. -/
theorem find_core_version_exhausted_fails (sr : StarRealms)
    (probe : String → Nat → ProbeOutcome)
    (hfail : ∀ v ∈ coreVersionRange,
      ∃ s, probe sr.token.token2 v = .response s ∧ s ≠ 200) :
    sr.find_core_version probe = (sr, coreVersionRange, .error .UnknownCoreVersion) :=
  find_core_version_loop_exhaustion sr probe coreVersionRange hfail

/-- Witness for claim C1 at the backend that answers 404 to every probe. -/
theorem find_core_version_exhausted_fails_witness :
    StarRealms.find_core_version { token := Token.default, core_version := 45 }
        (fun _ _ => .response 404) =
      ({ token := Token.default, core_version := 45 }, coreVersionRange,
        .error .UnknownCoreVersion) :=
  find_core_version_exhausted_fails _ _ (fun _ _ => ⟨404, rfl, by decide⟩)

/-- Claim C2: version discovery probes candidates sequentially in fixed
ascending order over 45..99 (the probed trace is exactly 45, 46, ..., 45+i),
adopts the first candidate that draws a 200 as the session core version,
silently discards the earlier non-200 failures (the overall result is `Ok`),
and aborts early only on a transport-level error, which is propagated to
the caller as the transport error kind. -/
theorem find_core_version_probe_order (sr : StarRealms)
    (probe : String → Nat → ProbeOutcome) (i : Nat) (hi : i < 55)
    (hfail : ∀ j < i, ∃ s, probe sr.token.token2 (45 + j) = .response s ∧ s ≠ 200) :
    (probe sr.token.token2 (45 + i) = .response 200 →
      sr.find_core_version probe =
        ({ sr with core_version := 45 + i }, List.range' 45 (i + 1), .ok ())) ∧
    (probe sr.token.token2 (45 + i) = .transportError →
      sr.find_core_version probe =
        (sr, List.range' 45 (i + 1), .error .ReqwestError)) := by
  have hfail2 : ∀ u ∈ List.range' 45 i,
      ∃ s, probe sr.token.token2 u = .response s ∧ s ≠ 200 := by
    intro u hu
    rw [List.mem_range'] at hu
    obtain ⟨j, hj, rfl⟩ := hu
    simpa using hfail j hj
  have hsplit : coreVersionRange =
      List.range' 45 i ++ (45 + i) :: List.range' (45 + i + 1) (54 - i) := by
    have h1 : List.range' 45 i ++ List.range' (45 + i) (55 - i) =
        List.range' 45 55 := by
      rw [List.range'_append_1]
      congr 1
      omega
    have h2 : List.range' (45 + i) (55 - i) =
        (45 + i) :: List.range' (45 + i + 1) (54 - i) := by
      have hn : 55 - i = (54 - i) + 1 := by omega
      rw [hn, List.range'_succ]
    unfold coreVersionRange
    rw [← h1, h2]
  constructor
  · intro hv
    have hloop := find_core_version_loop_first_success sr probe
      (List.range' 45 i) (List.range' (45 + i + 1) (54 - i)) (45 + i) hfail2 hv
    unfold StarRealms.find_core_version
    rw [hsplit, hloop, ← List.range'_1_concat]
  · intro hv
    have hloop := find_core_version_loop_transport_abort sr probe
      (List.range' 45 i) (List.range' (45 + i + 1) (54 - i)) (45 + i) hfail2 hv
    unfold StarRealms.find_core_version
    rw [hsplit, hloop, ← List.range'_1_concat]

/-- Witness for claim C2 at a backend that rejects versions below 47 with
401, accepts 47, and would fail at the transport level beyond it: discovery
probes exactly 45, 46, 47 in order and adopts 47. -/
theorem find_core_version_probe_order_witness :
    StarRealms.find_core_version { token := Token.default, core_version := 45 }
        (fun _ v => if v < 47 then ProbeOutcome.response 401
          else if v = 47 then ProbeOutcome.response 200
          else ProbeOutcome.transportError) =
      ({ token := Token.default, core_version := 47 }, List.range' 45 3, .ok ()) := by
  have h := (find_core_version_probe_order
      { token := Token.default, core_version := 45 }
      (fun _ v => if v < 47 then ProbeOutcome.response 401
        else if v = 47 then ProbeOutcome.response 200
        else ProbeOutcome.transportError)
      2 (by norm_num)
      (fun j hj => by
        have hlt : 45 + j < 47 := by omega
        exact ⟨401, by simp [hlt], by norm_num⟩)).1 (by norm_num)
  simpa using h

/-- Claim C3: for every credential pair the backend rejects with a non-200
status, `new_token` fails with `Error::InvalidAPIResponse` carrying the
display string of the exact status code the server returned (whatever the
parse result of the body would have been), and the whole session state, the
token in particular, is left exactly as it was, so a token that was the
default value beforehand remains the default value afterward. -/
theorem new_token_rejected (sr : StarRealms) (status : Nat) (body : Option Token)
    (h : status ≠ 200) :
    sr.new_token (.response status body) =
      (sr, .error (.InvalidAPIResponse (statusDisplay status))) := by
  simp [StarRealms.new_token, h]

/-- Witness for claim C3: a 401 rejection on the fresh session leaves the
default token in place and reports the status. -/
theorem new_token_rejected_witness :
    StarRealms.new_token { token := Token.default, core_version := 45 }
        (.response 401 none) =
      ({ token := Token.default, core_version := 45 },
        .error (.InvalidAPIResponse "401")) := by
  have h := new_token_rejected
    { token := Token.default, core_version := 45 } 401 none (by norm_num)
  simpa [statusDisplay] using h

/-- Claim C4: whenever the login step of the credential constructor fails
(for any reason: API rejection or transport failure), `StarRealms::new`
short-circuits: the list of version-discovery probes issued is empty and
the constructor returns exactly the login failure. -/
theorem new_login_failure_short_circuits (username password : String)
    (login : String → String → LoginResponse)
    (probe : String → Nat → ProbeOutcome) (e : Error)
    (h : (({ token := Token.default, core_version := 45 } : StarRealms).new_token
        (login username password)).2 = .error e) :
    StarRealms.new username password login probe = (.error e, []) := by
  rcases hq : ({ token := Token.default, core_version := 45 } : StarRealms).new_token
      (login username password) with ⟨sr1, r1⟩
  rw [hq] at h
  simp only at h
  simp [StarRealms.new, hq, h]

/-- Witness for claim C4: with the login rejected by a 403, no probe is
issued even against a backend that would accept every probe, and the login
failure is returned. -/
theorem new_login_failure_short_circuits_witness :
    StarRealms.new "fakeuser123" "fakepass123"
        (fun _ _ => LoginResponse.response 403 none)
        (fun _ _ => ProbeOutcome.response 200) =
      (.error (.InvalidAPIResponse "403"), []) :=
  new_login_failure_short_circuits "fakeuser123" "fakepass123"
    (fun _ _ => LoginResponse.response 403 none)
    (fun _ _ => ProbeOutcome.response 200)
    (.InvalidAPIResponse "403") rfl

/-- Claim C5: `get_auth` matches the supplied name against the recorded
player names by case-sensitive exact string comparison, testing player one
first: a name equal to the player-one name yields the player-one auth
value, a name equal to the player-two name (and not the player-one name)
yields the player-two auth value, and a name matching neither fails with
`Error::InvalidPlayerName` carrying the supplied name. -/
theorem get_auth_matches (cd : ClientData) (name : String) :
    (name = cd.p1_name → cd.get_auth name = .ok cd.p1_auth) ∧
    (name ≠ cd.p1_name → name = cd.p2_name → cd.get_auth name = .ok cd.p2_auth) ∧
    (name ≠ cd.p1_name → name ≠ cd.p2_name →
      cd.get_auth name = .error (.InvalidPlayerName name)) := by
  refine ⟨fun h1 => ?_, fun h1 h2 => ?_, fun h1 h2 => ?_⟩ <;>
    simp [ClientData.get_auth, h1]
  · simp [h2]
  · simp [h2]

/-- Witness for claim C5 on the Alice and Bob example of the spec. -/
theorem get_auth_matches_witness :
    ClientData.get_auth ⟨7, 9, "Alice", "Bob"⟩ "Alice" = .ok 7 ∧
    ClientData.get_auth ⟨7, 9, "Alice", "Bob"⟩ "Bob" = .ok 9 ∧
    ClientData.get_auth ⟨7, 9, "Alice", "Bob"⟩ "Carol" =
      .error (.InvalidPlayerName "Carol") :=
  ⟨(get_auth_matches ⟨7, 9, "Alice", "Bob"⟩ "Alice").1 rfl,
   (get_auth_matches ⟨7, 9, "Alice", "Bob"⟩ "Bob").2.1 (by decide) rfl,
   (get_auth_matches ⟨7, 9, "Alice", "Bob"⟩ "Carol").2.2 (by decide) (by decide)⟩

/-- Claim C6: `is_player_one` returns true exactly when the opponent name
differs from the decoded player-one name and false exactly when they are
equal, for every Game value, empty-string names included. -/
theorem is_player_one_iff (g : Game) :
    (g.is_player_one = true ↔ g.opponentname ≠ g.clientdata.p1_name) ∧
    (g.is_player_one = false ↔ g.opponentname = g.clientdata.p1_name) := by
  constructor <;> simp [Game.is_player_one]

/-- Witness for claim C6, exercising the empty-string boundary: with both
names empty the result is false, and with an empty opponent name against a
non-empty player-one name it is true. -/
theorem is_player_one_iff_witness :
    Game.is_player_one
        ⟨1, "t", "m", ⟨1, 2, "", "Bob"⟩, "", false, 0, false, "", false, false⟩ = false ∧
    Game.is_player_one
        ⟨1, "t", "m", ⟨1, 2, "Alice", "Bob"⟩, "", false, 0, false, "", false, false⟩ = true :=
  ⟨(is_player_one_iff _).2.mpr rfl, (is_player_one_iff _).1.mpr (by decide)⟩

/-- Claim C7: `which_turn` returns the opponent display name when the
needs-action flag is false, and when the flag is true it returns the
logged-in user own name: the decoded player-one name when `is_player_one`
holds for the game, the player-two name otherwise. -/
theorem which_turn_spec (g : Game) :
    (g.actionneeded = false → g.which_turn = g.opponentname) ∧
    (g.actionneeded = true →
      g.which_turn =
        if g.is_player_one then g.clientdata.p1_name else g.clientdata.p2_name) := by
  constructor <;> intro h <;> simp [Game.which_turn, h]

/-- Witness for claim C7: with the flag clear the opponent name comes back;
with the flag set and an opponent name differing from the player-one name,
the player-one name comes back. -/
theorem which_turn_spec_witness :
    Game.which_turn
        ⟨1, "t", "m", ⟨1, 2, "Alice", "Bob"⟩, "Opp", false, 0, false, "", false, false⟩ =
      "Opp" ∧
    Game.which_turn
        ⟨1, "t", "m", ⟨1, 2, "Alice", "Bob"⟩, "Opp", true, 0, false, "", false, false⟩ =
      "Alice" := by
  refine ⟨(which_turn_spec _).1 rfl, ?_⟩
  have h := (which_turn_spec
    ⟨1, "t", "m", ⟨1, 2, "Alice", "Bob"⟩, "Opp", true, 0, false, "", false, false⟩).2 rfl
  rw [h]
  rfl

/-- Claim C8: `is_finished` returns true exactly when the end reason is
zero, the won flag is false and the needs-action flag is false. -/
theorem is_finished_iff (g : Game) :
    g.is_finished = true ↔
      g.endreason = 0 ∧ g.won = false ∧ g.actionneeded = false := by
  simp [Game.is_finished, and_assoc]

/-- Witness for claim C8 on a finished game and on a game awaiting action. -/
theorem is_finished_iff_witness :
    Game.is_finished
        ⟨1, "t", "m", ⟨1, 2, "Alice", "Bob"⟩, "Opp", false, 0, false, "", false, false⟩ =
      true ∧
    ¬ (Game.is_finished
        ⟨1, "t", "m", ⟨1, 2, "Alice", "Bob"⟩, "Opp", true, 0, false, "", false, false⟩ =
      true) :=
  ⟨(is_finished_iff _).mpr ⟨rfl, rfl, rfl⟩,
   fun hc => by simpa using ((is_finished_iff _).mp hc).2.2⟩

/-- Decoding a list of JSON strings recovers the underlying string list. -/
theorem decodeStrList_map_str (l : List String) :
    decodeStrList (l.map Json.str) = some l := by
  induction l with
  | nil => rfl
  | cons a l ih => simp [decodeStrList, Json.asStr, ih]

/-- Claim C9: serializing any Token to the wire JSON shape with fields
`name`, `id`, `token1`, `token2`, `purchases` and parsing that JSON back
with the derived field-wise decoder yields a Token field-for-field
identical to the original, the ordering and the content of the purchases
list included. -/
theorem token_roundtrip (t : Token) :
    Token.fromWireJson (Token.toWireJson t) = some t := by
  have hid : ¬((t.id : Int) < 0) := by omega
  simp [Token.toWireJson, Token.fromWireJson, Json.getField, List.lookup,
        Json.asStr, Json.asNat, Json.asStrList, decodeStrList_map_str, hid]

/-- Witness for claim C9 on a concrete token with two purchases. -/
theorem token_roundtrip_witness :
    Token.fromWireJson
        (Token.toWireJson ⟨"user", 3, "t1", "t2", ["a", "b"]⟩) =
      some ⟨"user", 3, "t1", "t2", ["a", "b"]⟩ :=
  token_roundtrip ⟨"user", 3, "t1", "t2", ["a", "b"]⟩

/-- Claim C10: when the two recorded player names are equal, `get_auth` on
that shared name returns the player-one auth value: the lookup tests the
player-one name first, so player one wins the tie. -/
theorem get_auth_tie_player_one (cd : ClientData) (h : cd.p1_name = cd.p2_name) :
    cd.get_auth cd.p2_name = .ok cd.p1_auth := by
  simp [ClientData.get_auth, h]

/-- Witness for claim C10 on a ClientData whose two players share the same
name but carry distinct auth values: the player-one value is returned. -/
theorem get_auth_tie_player_one_witness :
    ClientData.get_auth ⟨1, 2, "Same", "Same"⟩ "Same" = .ok 1 :=
  get_auth_tie_player_one ⟨1, 2, "Same", "Same"⟩ rfl

end StarRealmsRs
